import Mathlib

/-!
Verification development for the gravity-wars.io simulation core
(`src/app/page.tsx`).  The per-tick physics, energy, AI and collision
functions are embedded shallowly: JavaScript numbers become real numbers,
optional fields become `Option ℝ`, in-place mutation becomes explicit
state passing, and `Math.random()` becomes an explicit stream of reals
threaded through the collision pass.
-/

namespace GravityWars

/-! ### Game constants (page.tsx lines 11-26) -/

noncomputable def GRAVITY_CONSTANT : ℝ := 1.5
noncomputable def MAX_VELOCITY : ℝ := 4
noncomputable def ENERGY_DECAY_RATE : ℝ := 0.08
noncomputable def GRAVITY_PULL_COST : ℝ := 3
noncomputable def CHARGING_RADIUS : ℝ := 400
noncomputable def GRAVITY_PULL_RADIUS : ℝ := 250
noncomputable def GRAVITY_PULL_STRENGTH : ℝ := 0.3
noncomputable def ORBITAL_ABSORPTION_RATE : ℝ := 0.001
noncomputable def AI_GROWTH_RATE : ℝ := 0.0002
noncomputable def AI_MAX_MASS : ℝ := 40
noncomputable def ENERGY_ABSORPTION_RATE : ℝ := 0.5
noncomputable def MASS_ABSORPTION_RATE : ℝ := 0.8

/-! ### Entity model (page.tsx lines 31-117) -/

inductive ObjectType where
  | player | ai | debris | planet | star | blackhole | whitedwarf
  | wormhole | pulsar | neutronstar | comet | asteroid | spacestation | anomaly
deriving DecidableEq, Repr

inductive AIState where
  | hunting | fleeing | exploring | charging
deriving DecidableEq, Repr

/-- Record `GameObject` from page.tsx; fields irrelevant to the simulation logic
(color, pulsePhase, orbit bookkeeping) are omitted, optional fields are
`Option`-valued, absent boolean flags default to `false` as in JS truthiness. -/
structure GameObject where
  id : String
  x : ℝ
  y : ℝ
  vx : ℝ
  vy : ℝ
  mass : ℝ
  radius : ℝ
  type : ObjectType
  energy : Option ℝ := none
  maxEnergy : Option ℝ := none
  isGlowing : Bool := false
  chargingRate : Option ℝ := none
  absorptionProgress : Option ℝ := none
  lastMovementTime : Option ℝ := none
  aiState : Option AIState := none

/-- Euclidean distance as computed everywhere in the source:
`Math.sqrt(dx*dx + dy*dy)`. -/
noncomputable def dist2D (x1 y1 x2 y2 : ℝ) : ℝ :=
  Real.sqrt ((x2 - x1) * (x2 - x1) + (y2 - y1) * (y2 - y1))

/-- JS `a || d` on an optional numeric field: `undefined` and `0` are falsy. -/
noncomputable def jsOr (a : Option ℝ) (d : ℝ) : ℝ :=
  match a with
  | none => d
  | some v => if v = 0 then d else v

/-- JS truthiness of an optional numeric field (`larger.energy && ...`). -/
noncomputable def optTruthy (a : Option ℝ) : Prop :=
  a.getD 0 ≠ 0

noncomputable instance (a : Option ℝ) : Decidable (optTruthy a) := by
  unfold optTruthy; infer_instance

/-- Function `calculateRadius` (page.tsx lines 192-223). -/
noncomputable def calculateRadius (mass : ℝ) (t : ObjectType) : ℝ :=
  let baseRadius := Real.sqrt mass * 1.2
  match t with
  | .player => max 6 baseRadius
  | .ai => max 6 baseRadius
  | .debris => max 2 (baseRadius * 0.8)
  | .asteroid => max 2 (baseRadius * 0.8)
  | .planet => max 12 (baseRadius * 1.1)
  | .star => max 18 (baseRadius * 1.3)
  | .blackhole => max 20 (baseRadius * 1.4)
  | .whitedwarf => max 10 (baseRadius * 0.9)
  | .wormhole => max 12 baseRadius
  | .pulsar => max 15 (baseRadius * 1.1)
  | .neutronstar => max 8 (baseRadius * 0.7)
  | .comet => max 4 (baseRadius * 0.9)
  | .spacestation => max 8 (baseRadius * 1.0)
  | .anomaly => baseRadius

/-! ### Force engine: `applyGravity` (page.tsx lines 726-777) -/

/-- Pairwise gravitational acceleration contribution of `other` on `obj`
(the body of the summation loop in `applyGravity`, lines 730-747).
A self pair or a zero-distance pair contributes nothing. -/
noncomputable def gravAccel (obj other : GameObject) : ℝ × ℝ :=
  if other.id = obj.id then (0, 0)
  else
    let dx := other.x - obj.x
    let dy := other.y - obj.y
    let distance := Real.sqrt (dx * dx + dy * dy)
    if 0 < distance then
      let force0 := GRAVITY_CONSTANT * other.mass / (distance * distance)
      let force := if other.isGlowing then force0 * 1.3 else force0
      ((dx / distance) * force, (dy / distance) * force)
    else (0, 0)

/-- One step of the `fx += ...; fy += ...` accumulation. -/
noncomputable def gravStep (obj : GameObject) (acc : ℝ × ℝ) (other : GameObject) : ℝ × ℝ :=
  (acc.1 + (gravAccel obj other).1, acc.2 + (gravAccel obj other).2)

/-- Summed gravity acceleration `(fx, fy)` over all bodies. -/
noncomputable def gravSum (obj : GameObject) (objects : List GameObject) : ℝ × ℝ :=
  objects.foldl (gravStep obj) (0, 0)

/-- Speed clamp at the end of `applyGravity` (lines 772-776): uniform
rescaling onto magnitude `MAX_VELOCITY` when exceeded. -/
noncomputable def clampVelocity (vx vy : ℝ) : ℝ × ℝ :=
  let speed := Real.sqrt (vx * vx + vy * vy)
  if MAX_VELOCITY < speed then ((vx / speed) * MAX_VELOCITY, (vy / speed) * MAX_VELOCITY)
  else (vx, vy)

/-- The gravity-pull ability's effect on one other body
(page.tsx lines 752-764); the player pulls strictly lighter bodies
within `GRAVITY_PULL_RADIUS`. -/
noncomputable def gravityPullOn (player other : GameObject) : GameObject :=
  if other.id = player.id ∨ player.mass ≤ other.mass then other
  else
    let dx := player.x - other.x
    let dy := player.y - other.y
    let distance := Real.sqrt (dx * dx + dy * dy)
    if 0 < distance ∧ distance < GRAVITY_PULL_RADIUS then
      let pullForce := player.mass * GRAVITY_PULL_STRENGTH / (distance * distance)
      { other with vx := other.vx + (dx / distance) * pullForce,
                   vy := other.vy + (dy / distance) * pullForce }
    else other

/-- Function `applyGravity` restricted to its effect on the target body itself:
the summed acceleration is added to the velocity and clamped, and when the
gravity-pull ability is active and the target is the player with positive
energy, the ability cost is subtracted from its energy with no clamp
(line 766).  The simultaneous velocity mutation of the *other* bodies by
the pull is `gravityPullOn` above. -/
noncomputable def applyGravity (pullActive : Bool) (obj : GameObject)
    (objects : List GameObject) : GameObject :=
  let f := gravSum obj objects
  let obj1 :=
    if pullActive = true ∧ obj.id = "player" ∧ 0 < obj.energy.getD 0 then
      { obj with energy := some (obj.energy.getD 0 - GRAVITY_PULL_COST * 0.016) }
    else obj
  let v := clampVelocity (obj1.vx + f.1) (obj1.vy + f.2)
  { obj1 with vx := v.1, vy := v.2 }

/-- The gravity-exemption gate of the tick loop (page.tsx lines 1551-1553):
`if (!obj.isGlowing || obj.type === "wormhole") applyGravity(obj, objects)`. -/
noncomputable def gravityGate (pullActive : Bool) (obj : GameObject)
    (objects : List GameObject) : GameObject :=
  if obj.isGlowing = false ∨ obj.type = .wormhole then applyGravity pullActive obj objects
  else obj

/-! ### Energy tracker: `updateEnergy` (page.tsx lines 780-797) -/

/-- One charging step of the `objects.forEach` loop in `updateEnergy`:
a glowing body inside the charging radius and outside contact range adds
`chargingRate * (1 - d/CHARGING_RADIUS)` scaled energy, capped at `me`. -/
noncomputable def chargeStep (obj : GameObject) (me : ℝ) (acc : ℝ) (other : GameObject) : ℝ :=
  if other.isGlowing = true ∧ ¬(other.id = obj.id) then
    let distance := dist2D obj.x obj.y other.x other.y
    if distance < CHARGING_RADIUS ∧ other.radius + obj.radius + 5 < distance then
      let chargeRate := jsOr other.chargingRate 1 * (1 - distance / CHARGING_RADIUS)
      min me (acc + chargeRate * 0.016)
    else acc
  else acc

/-- Function `updateEnergy`: for a body that tracks energy, decay floored at 0,
then charging near glowing bodies capped at `maxEnergy`. -/
noncomputable def updateEnergy (obj : GameObject) (objects : List GameObject) : GameObject :=
  match obj.energy, obj.maxEnergy with
  | some e, some me =>
    let e1 := max 0 (e - ENERGY_DECAY_RATE * 0.016)
    { obj with energy := some (objects.foldl (chargeStep obj me) e1) }
  | _, _ => obj

/-! ### Orbital risk: `handleOrbitalMechanics` (page.tsx lines 557-607) -/

/-- Body of the `objects.forEach` loop of `handleOrbitalMechanics` for one
glowing body: risk accumulation/decay inside the proximity band, the
immediate energy zeroing when accumulated risk exceeds 1, the tangential
orbit nudge beyond the minimum stand-off distance, and the risk reset
outside the band. -/
noncomputable def orbitalStep (playerMoving : Bool) (obj glowingObj : GameObject) : GameObject :=
  if glowingObj.isGlowing = true ∧ ¬(glowingObj.id = obj.id) then
    let dx := glowingObj.x - obj.x
    let dy := glowingObj.y - obj.y
    let distance := Real.sqrt (dx * dx + dy * dy)
    let minOrbitDistance := glowingObj.radius + obj.radius + 10
    if distance < glowingObj.radius + obj.radius + 50 then
      let obj1 :=
        if playerMoving = true then
          { obj with absorptionProgress := some (max 0 (obj.absorptionProgress.getD 0 - 0.01)) }
        else
          let p := obj.absorptionProgress.getD 0 + ORBITAL_ABSORPTION_RATE
          if 1 < p then { obj with absorptionProgress := some p, energy := some 0 }
          else { obj with absorptionProgress := some p }
      if minOrbitDistance < distance then
        { obj1 with vx := obj1.vx + (-dy / distance) * 0.02,
                    vy := obj1.vy + (dx / distance) * 0.02 }
      else obj1
    else { obj with absorptionProgress := some 0 }
  else obj

/-- Function `handleOrbitalMechanics`: the loop over all bodies, applied to the
player only. -/
noncomputable def handleOrbitalMechanics (playerMoving : Bool) (obj : GameObject)
    (objects : List GameObject) : GameObject :=
  if obj.type = .player then objects.foldl (orbitalStep playerMoving) obj
  else obj

/-! ### AI policy: `updateAI` (page.tsx lines 610-686) -/

/-- The AI after the throttle passes: `lastMovementTime` stamped with the
current time and passive growth applied (lines 616-622). -/
noncomputable def aiAfterGrowth (now : ℝ) (ai : GameObject) : GameObject :=
  let a1 : GameObject := { ai with lastMovementTime := some now }
  if a1.mass < AI_MAX_MASS then
    { a1 with mass := a1.mass + AI_GROWTH_RATE,
              radius := calculateRadius (a1.mass + AI_GROWTH_RATE) a1.type }
  else a1

/-- List `nearbyObjects` (lines 625-631): other bodies within distance 300. -/
noncomputable def aiNearby (ai : GameObject) (objects : List GameObject) : List GameObject :=
  objects.filter fun o => ¬(o.id = ai.id) ∧ dist2D ai.x ai.y o.x o.y < 300

/-- List `smallerObjects`: nearby, strictly lighter and not glowing. -/
noncomputable def aiSmaller (ai : GameObject) (objects : List GameObject) : List GameObject :=
  (aiNearby ai objects).filter fun o => o.mass < ai.mass ∧ o.isGlowing = false

/-- List `largerObjects`: nearby and strictly heavier. -/
noncomputable def aiLarger (ai : GameObject) (objects : List GameObject) : List GameObject :=
  (aiNearby ai objects).filter fun o => ai.mass < o.mass

/-- List `glowingObjects`: nearby glowing bodies. -/
noncomputable def aiGlowing (ai : GameObject) (objects : List GameObject) : List GameObject :=
  (aiNearby ai objects).filter fun o => o.isGlowing = true

/-- Constant acceleration toward a target when at positive distance
(the charging and hunting motion bodies, lines 642-649 and 668-677). -/
noncomputable def aiSeek (force : ℝ) (ai target : GameObject) : GameObject :=
  let dx := target.x - ai.x
  let dy := target.y - ai.y
  let distance := Real.sqrt (dx * dx + dy * dy)
  if 0 < distance then
    { ai with vx := ai.vx + (dx / distance) * force, vy := ai.vy + (dy / distance) * force }
  else ai

/-- One step of the flee loop (lines 654-664): push away from a threat
closer than 150. -/
noncomputable def aiFleeStep (ai threat : GameObject) : GameObject :=
  let dx := ai.x - threat.x
  let dy := ai.y - threat.y
  let distance := Real.sqrt (dx * dx + dy * dy)
  if 0 < distance ∧ distance < 150 then
    { ai with vx := ai.vx + (dx / distance) * 0.15, vy := ai.vy + (dy / distance) * 0.15 }
  else ai

/-- Function `updateAI`: early return on falsy energy (`!ai.energy`, so `0` or
absent), throttle to one decision per 100ms, passive growth, then the
state machine with priority charging, fleeing, hunting, exploring.
`now` stands for `Date.now()` and `r1 r2 r3` for the `Math.random()`
draws of the exploring branch. -/
noncomputable def updateAI (now r1 r2 r3 : ℝ) (ai : GameObject)
    (objects : List GameObject) : GameObject :=
  if ai.energy.getD 0 = 0 then ai
  else if now - ai.lastMovementTime.getD 0 < 100 then ai
  else
    let a := aiAfterGrowth now ai
    if a.energy.getD 0 < 30 ∧ (aiGlowing a objects).isEmpty = false then
      match aiGlowing a objects with
      | [] => { a with aiState := some .charging }
      | target :: _ => aiSeek 0.1 { a with aiState := some .charging } target
    else if (aiLarger a objects).isEmpty = false then
      (aiLarger a objects).foldl aiFleeStep { a with aiState := some .fleeing }
    else if (aiSmaller a objects).isEmpty = false then
      match aiSmaller a objects with
      | [] => { a with aiState := some .hunting }
      | target :: _ => aiSeek 0.08 { a with aiState := some .hunting } target
    else
      let a1 : GameObject := { a with aiState := some .exploring }
      if r1 < 0.02 then
        { a1 with vx := a1.vx + (r2 - 0.5) * 0.2, vy := a1.vy + (r3 - 0.5) * 0.2 }
      else a1

/-! ### Space activities: `handleSpaceActivities` (page.tsx lines 886-907) -/

inductive ActivityType where
  | derelictShip | ancientRelic | energyCrystal | spaceWhale | alienStructure
deriving DecidableEq, Repr

structure SpaceActivity where
  id : String
  type : ActivityType
  x : ℝ
  y : ℝ
  radius : ℝ
  reward : ℝ
  discovered : Bool

/-- The player-side effect of discovering one activity: an energy crystal
sets the player's energy to `maxEnergy` (page.tsx lines 900-902). -/
noncomputable def crystalTouch (a : SpaceActivity) (player : GameObject) : GameObject :=
  if a.type = .energyCrystal then { player with energy := player.maxEnergy } else player

/-- Function `handleSpaceActivities`: the `forEach` over activities, threading the
mutated player and score and rebuilding the activity list in place.  An
undiscovered activity in contact is flagged discovered, its reward added
to the score, and an energy crystal sets the player's energy to
`maxEnergy`; activities are never removed. -/
noncomputable def handleSpaceActivities (player : GameObject) (score : ℝ) :
    List SpaceActivity → GameObject × List SpaceActivity × ℝ
  | [] => (player, [], score)
  | a :: rest =>
    let distance := dist2D player.x player.y a.x a.y
    if distance < a.radius + player.radius ∧ a.discovered = false then
      let r := handleSpaceActivities (crystalTouch a player) (score + a.reward) rest
      (r.1, { a with discovered := true } :: r.2.1, r.2.2)
    else
      let r := handleSpaceActivities player score rest
      (r.1, a :: r.2.1, r.2.2)

/-! ### Collision resolver: `handleCollisions` (page.tsx lines 910-971) -/

/-- The mutable state of one collision pass: the body array, the snapshot
of `wormholesRef`, the deferred removal list, the accumulated score, and
the `Math.random()` stream with its read position. -/
structure CollisionState where
  objects : List GameObject
  wormholes : List GameObject
  toRemove : List String
  scoreIncrease : ℝ
  rng : ℕ → ℝ
  rngIdx : ℕ

/-- A default body (used only to give `List.getD` a value at in-range
indices). -/
noncomputable def dummyObject : GameObject :=
  { id := "", x := 0, y := 0, vx := 0, vy := 0, mass := 0, radius := 0, type := .debris }

/-- One iteration of the nested pair loop of `handleCollisions` for the
pair at indices `i < j`: wormhole teleport, fatal glowing contact with an
over-risk player, then larger-absorbs-smaller with deferred removal. -/
noncomputable def collidePair (st : CollisionState) (i j : ℕ) : CollisionState :=
  match st.objects.get? i, st.objects.get? j with
  | some obj1, some obj2 =>
    let distance := dist2D obj1.x obj1.y obj2.x obj2.y
    if distance < obj1.radius + obj2.radius then
      if obj1.type = .wormhole ∧ obj2.type = .player then
        let availableWormholes := st.wormholes.filter fun w => ¬(w.id = obj1.id)
        if 0 < availableWormholes.length then
          let k := (⌊st.rng st.rngIdx * (availableWormholes.length : ℝ)⌋).toNat
          let targetWormhole := availableWormholes.getD k dummyObject
          let obj2' := { obj2 with
            x := targetWormhole.x + (st.rng (st.rngIdx + 1) - 0.5) * 100,
            y := targetWormhole.y + (st.rng (st.rngIdx + 2) - 0.5) * 100,
            vx := obj2.vx * 0.5, vy := obj2.vy * 0.5 }
          { st with objects := st.objects.set j obj2', rngIdx := st.rngIdx + 3 }
        else st
      else if obj1.isGlowing = true ∧ obj2.type = .player ∧ 1 < obj2.absorptionProgress.getD 0 then
        { st with objects := st.objects.set j { obj2 with energy := some 0 } }
      else if obj2.isGlowing = true ∧ obj1.type = .player ∧ 1 < obj1.absorptionProgress.getD 0 then
        { st with objects := st.objects.set i { obj1 with energy := some 0 } }
      else
        let li := if obj2.mass < obj1.mass then i else j
        let larger := if obj2.mass < obj1.mass then obj1 else obj2
        let smaller := if obj2.mass < obj1.mass then obj2 else obj1
        if smaller.isGlowing = false ∧ larger.isGlowing = false then
          let newMass := larger.mass + smaller.mass * MASS_ABSORPTION_RATE
          let larger1 := { larger with mass := newMass,
                                       radius := calculateRadius newMass larger.type }
          let larger2 :=
            if optTruthy larger.energy ∧ optTruthy smaller.energy then
              { larger1 with energy := some (min (larger.maxEnergy.getD 0)
                  (larger.energy.getD 0 + smaller.energy.getD 0 * ENERGY_ABSORPTION_RATE)) }
            else larger1
          { st with objects := st.objects.set li larger2,
                    toRemove := st.toRemove ++ [smaller.id],
                    scoreIncrease := st.scoreIncrease +
                      (if larger.id = "player" then ((⌊smaller.mass * 20⌋ : ℤ) : ℝ) else 0) }
        else st
    else st
  | _, _ => st

/-- The index pairs `(i, j)` with `i < j < n` in the order the nested
`for` loops of `handleCollisions` visit them. -/
def pairIndices (n : ℕ) : List (ℕ × ℕ) :=
  (List.range n).flatMap fun i => ((List.range n).filter fun j => i < j).map fun j => (i, j)

/-- Function `handleCollisions`: one full pass over all unordered pairs. -/
noncomputable def handleCollisions (st : CollisionState) : CollisionState :=
  (pairIndices st.objects.length).foldl (fun s p => collidePair s p.1 p.2) st

/-! ### Helper lemmas -/

/-- The clamp at the end of `applyGravity` caps the speed at `MAX_VELOCITY`. -/
theorem clampVelocity_speed_le (vx vy : ℝ) :
    Real.sqrt ((clampVelocity vx vy).1 * (clampVelocity vx vy).1 +
      (clampVelocity vx vy).2 * (clampVelocity vx vy).2) ≤ MAX_VELOCITY := by
  simp only [clampVelocity]
  set s := Real.sqrt (vx * vx + vy * vy) with hsdef
  split_ifs with h
  · have hs0 : (0:ℝ) < s := lt_trans (by norm_num [MAX_VELOCITY]) h
    have hne : s ≠ 0 := ne_of_gt hs0
    have hsq : s * s = vx * vx + vy * vy := by
      rw [hsdef]
      exact Real.mul_self_sqrt (add_nonneg (mul_self_nonneg vx) (mul_self_nonneg vy))
    have key : (vx / s * MAX_VELOCITY) * (vx / s * MAX_VELOCITY) +
        (vy / s * MAX_VELOCITY) * (vy / s * MAX_VELOCITY) = MAX_VELOCITY * MAX_VELOCITY := by
      field_simp
      nlinarith [hsq]
    simp only [key]
    rw [show MAX_VELOCITY * MAX_VELOCITY = MAX_VELOCITY ^ 2 by ring,
      Real.sqrt_sq (by norm_num [MAX_VELOCITY])]
  · rw [not_lt] at h
    exact h

/-! ### Claim theorems -/

/-- C5 (amended): after `applyGravity` the body's speed never exceeds
`MAX_VELOCITY`, and the clamp is a uniform nonnegative rescaling of the
summed velocity (direction preserved).  The original claim's "after every
force-application step" fails: see `C5_counterexample` (the orbital nudge
is applied without a clamp). -/
theorem C5_gravity_speed_clamped :
    (∀ (pullActive : Bool) (obj : GameObject) (objects : List GameObject),
      Real.sqrt ((applyGravity pullActive obj objects).vx * (applyGravity pullActive obj objects).vx +
        (applyGravity pullActive obj objects).vy * (applyGravity pullActive obj objects).vy)
        ≤ MAX_VELOCITY) ∧
    (∀ vx vy : ℝ, ∃ c : ℝ, 0 ≤ c ∧ clampVelocity vx vy = (c * vx, c * vy)) := by
  constructor
  · intro pullActive obj objects
    exact clampVelocity_speed_le _ _
  · intro vx vy
    simp only [clampVelocity]
    split_ifs with h
    · have hs0 : (0:ℝ) < Real.sqrt (vx * vx + vy * vy) :=
        lt_trans (by norm_num [MAX_VELOCITY]) h
      refine ⟨MAX_VELOCITY / Real.sqrt (vx * vx + vy * vy),
        div_nonneg (by norm_num [MAX_VELOCITY]) (Real.sqrt_nonneg _), ?_⟩
      simp only [Prod.mk.injEq]
      constructor <;> ring
    · exact ⟨1, by norm_num, by simp⟩

/-- C7: in the tick loop's gravity gate, a glowing body that is not a
wormhole is exempt (returned unchanged, so in particular its velocity is
unchanged), while every wormhole and every non-glowing body receives the
`applyGravity` update. -/
theorem C7_glowing_exempt_from_gravity (pullActive : Bool) (obj : GameObject)
    (objects : List GameObject) :
    (obj.isGlowing = true → ¬obj.type = .wormhole →
      gravityGate pullActive obj objects = obj) ∧
    ((obj.isGlowing = false ∨ obj.type = .wormhole) →
      gravityGate pullActive obj objects = applyGravity pullActive obj objects) := by
  constructor
  · intro hg hw
    unfold gravityGate
    have hcond : ¬(obj.isGlowing = false ∨ obj.type = .wormhole) := by
      simp [hg, hw]
    rw [if_neg hcond]
  · intro h
    unfold gravityGate
    rw [if_pos h]

noncomputable def c7star : GameObject :=
  { id := "star-1", x := 100, y := 0, vx := 0, vy := 0, mass := 120, radius := 18,
    type := .star, isGlowing := true, chargingRate := some 8 }

noncomputable def c7wormhole : GameObject :=
  { id := "wormhole-1", x := -200, y := 50, vx := 0, vy := 0, mass := 20, radius := 12,
    type := .wormhole, isGlowing := true, chargingRate := some 6 }

/-- C7 witness: a concrete glowing star is left unchanged by the gravity
gate, while a concrete wormhole receives the gravity update. -/
theorem C7_witness :
    (c7star.isGlowing = true ∧ ¬c7star.type = .wormhole ∧
      gravityGate false c7star [] = c7star) ∧
    ((c7wormhole.isGlowing = false ∨ c7wormhole.type = .wormhole) ∧
      gravityGate false c7wormhole [] = applyGravity false c7wormhole []) := by
  refine ⟨⟨rfl, ?_, ?_⟩, ⟨Or.inr rfl, ?_⟩⟩
  · simp [c7star]
  · exact (C7_glowing_exempt_from_gravity false c7star []).1 rfl (by simp [c7star])
  · exact (C7_glowing_exempt_from_gravity false c7wormhole []).2 (Or.inr rfl)

/-- C10: an AI body whose energy is `0` or absent is returned unchanged by
`updateAI` — no growth, no radius recompute, no state transition, no
velocity change. -/
theorem C10_depleted_ai_frozen (now r1 r2 r3 : ℝ) (ai : GameObject)
    (objects : List GameObject)
    (h : ai.energy = none ∨ ai.energy = some 0) :
    updateAI now r1 r2 r3 ai objects = ai := by
  unfold updateAI
  rcases h with h | h <;> simp [h]

noncomputable def c10ai : GameObject :=
  { id := "ai-7", x := 10, y := -5, vx := 1, vy := 1, mass := 6, radius := 6, type := .ai,
    energy := some 0, maxEnergy := some 100, aiState := some .exploring,
    lastMovementTime := some 0 }

/-- C10 witness: a concrete zero-energy AI is left untouched. -/
theorem C10_witness :
    (c10ai.energy = none ∨ c10ai.energy = some 0) ∧
    updateAI 1000 0.5 0.5 0.5 c10ai [c10ai] = c10ai :=
  ⟨Or.inr rfl, C10_depleted_ai_frozen 1000 0.5 0.5 0.5 c10ai [c10ai] (Or.inr rfl)⟩

/-- C6: for a pair at positive distance `d`, the gravity contribution is
`GRAVITY_CONSTANT * mass / d²` along the unit vector toward the other
body, multiplied by 1.3 exactly when the other body is glowing; a pair at
distance exactly 0 contributes `(0,0)`; and a zero contribution only
short-circuits that pair — the summation over the remaining bodies is
unaffected. -/
theorem C6_gravity_contribution :
    (∀ obj other : GameObject, ¬(other.id = obj.id) →
      (0 < dist2D obj.x obj.y other.x other.y →
        gravAccel obj other =
          (GRAVITY_CONSTANT * other.mass /
              (dist2D obj.x obj.y other.x other.y * dist2D obj.x obj.y other.x other.y) *
              (if other.isGlowing = true then 1.3 else 1) *
              ((other.x - obj.x) / dist2D obj.x obj.y other.x other.y),
           GRAVITY_CONSTANT * other.mass /
              (dist2D obj.x obj.y other.x other.y * dist2D obj.x obj.y other.x other.y) *
              (if other.isGlowing = true then 1.3 else 1) *
              ((other.y - obj.y) / dist2D obj.x obj.y other.x other.y))) ∧
      (dist2D obj.x obj.y other.x other.y = 0 → gravAccel obj other = (0, 0))) ∧
    (∀ (obj z : GameObject) (l1 l2 : List GameObject), gravAccel obj z = (0, 0) →
      gravSum obj (l1 ++ z :: l2) = gravSum obj (l1 ++ l2)) := by
  constructor
  · intro obj other hid
    constructor
    · intro hd
      simp only [dist2D] at hd ⊢
      simp only [gravAccel, if_neg hid, if_pos hd]
      cases hglow : other.isGlowing <;>
        simp only [hglow, if_pos, if_neg, Bool.false_eq_true, ite_true, ite_false] <;>
        · simp only [Prod.mk.injEq]
          constructor <;> ring
    · intro hd0
      simp only [dist2D] at hd0
      simp only [gravAccel, if_neg hid, hd0, lt_self_iff_false, ite_false]
  · intro obj z l1 l2 hz
    unfold gravSum
    rw [List.foldl_append, List.foldl_append, List.foldl_cons]
    congr 1
    unfold gravStep
    rw [hz]
    simp

noncomputable def c6obj : GameObject :=
  { id := "player", x := 0, y := 0, vx := 0, vy := 0, mass := 8, radius := 6, type := .player,
    energy := some 80, maxEnergy := some 120 }

noncomputable def c6other : GameObject :=
  { id := "star-6", x := 3, y := 4, vx := 0, vy := 0, mass := 10, radius := 18, type := .star,
    isGlowing := true, chargingRate := some 8 }

/-- C6 witness: a glowing mass-10 body at distance 5 pulls with
`1.5·10/25·1.3 = 0.78` along the unit vector `(0.6, 0.8)`. -/
theorem C6_witness :
    ¬(c6other.id = c6obj.id) ∧ 0 < dist2D c6obj.x c6obj.y c6other.x c6other.y ∧
    gravAccel c6obj c6other = (0.468, 0.624) := by
  have hd : dist2D c6obj.x c6obj.y c6other.x c6other.y = 5 := by
    show Real.sqrt ((3 - 0) * (3 - 0) + (4 - 0) * (4 - 0)) = 5
    rw [show ((3:ℝ) - 0) * (3 - 0) + (4 - 0) * (4 - 0) = 5 ^ 2 by norm_num]
    exact Real.sqrt_sq (by norm_num)
  have hid : ¬(c6other.id = c6obj.id) := by simp [c6obj, c6other]
  have hpos : 0 < dist2D c6obj.x c6obj.y c6other.x c6other.y := by rw [hd]; norm_num
  refine ⟨hid, hpos, ?_⟩
  have h := (C6_gravity_contribution.1 c6obj c6other hid).1 hpos
  rw [h, hd]
  norm_num [GRAVITY_CONSTANT, c6obj, c6other]

noncomputable def c5player : GameObject :=
  { id := "player", x := 0, y := 0, vx := -3.2, vy := 2.4, mass := 8, radius := 5,
    type := .player, energy := some 80, maxEnergy := some 120 }

noncomputable def c5glow : GameObject :=
  { id := "star-c5", x := 30, y := 40, vx := 0, vy := 0, mass := 100, radius := 20,
    type := .star, isGlowing := true, chargingRate := some 8 }

/-- C5 counterexample: the tangential orbital nudge of
`handleOrbitalMechanics` is applied with no speed clamp, so a player
moving at exactly `MAX_VELOCITY` leaves the orbital update faster than
`MAX_VELOCITY` — the claim's "after any force-application step" fails. -/
theorem C5_counterexample :
    MAX_VELOCITY < Real.sqrt
      ((handleOrbitalMechanics true c5player [c5glow]).vx *
         (handleOrbitalMechanics true c5player [c5glow]).vx +
       (handleOrbitalMechanics true c5player [c5glow]).vy *
         (handleOrbitalMechanics true c5player [c5glow]).vy) := by
  have hsqrt : Real.sqrt 2500 = 50 := by
    rw [show (2500:ℝ) = 50 ^ 2 by norm_num]
    exact Real.sqrt_sq (by norm_num)
  have hres : handleOrbitalMechanics true c5player [c5glow] =
      { c5player with absorptionProgress := some 0,
                      vx := -3.2 + -40 / 50 * 0.02, vy := 2.4 + 30 / 50 * 0.02 } := by
    simp only [handleOrbitalMechanics, orbitalStep, c5player, c5glow,
      List.foldl_cons, List.foldl_nil]
    norm_num [hsqrt]
    decide
  rw [hres]
  rw [Real.lt_sqrt (by norm_num [MAX_VELOCITY])]
  norm_num [MAX_VELOCITY, c5player]

/-- C2 (amended): accumulated orbital risk above 1 zeroes the player's
energy *immediately inside the orbital-mechanics update* while the player
is stalled (not moving) near a glowing body — risk alone does kill; and,
independently, contact with a glowing (non-wormhole) body while risk
exceeds 1 forces the player's energy to exactly 0 in the collision pass,
with no mass transfer, no removal and no score change for that pair. -/
theorem C2_risk_and_fatal_contact :
    (∀ obj g : GameObject,
      obj.type = .player → g.isGlowing = true → ¬(g.id = obj.id) →
      dist2D obj.x obj.y g.x g.y < g.radius + obj.radius + 50 →
      1 < obj.absorptionProgress.getD 0 + ORBITAL_ABSORPTION_RATE →
      (handleOrbitalMechanics false obj [g]).energy = some 0) ∧
    (∀ (st : CollisionState) (i j : ℕ) (obj1 obj2 : GameObject),
      st.objects.get? i = some obj1 → st.objects.get? j = some obj2 →
      obj1.isGlowing = true → ¬(obj1.type = .wormhole) → obj2.type = .player →
      1 < obj2.absorptionProgress.getD 0 →
      dist2D obj1.x obj1.y obj2.x obj2.y < obj1.radius + obj2.radius →
      collidePair st i j =
        { st with objects := st.objects.set j { obj2 with energy := some 0 } }) := by
  constructor
  · intro obj g hp hg hid hdist hrisk
    simp only [dist2D] at hdist
    simp only [handleOrbitalMechanics, List.foldl_cons, List.foldl_nil, if_pos hp, orbitalStep]
    rw [if_pos (And.intro hg hid), if_pos hdist]
    simp only [Bool.false_eq_true, if_false]
    rw [if_pos hrisk]
    split_ifs <;> rfl
  · intro st i j obj1 obj2 h1 h2 hg hw hp hrisk hdist
    simp only [collidePair, h1, h2]
    rw [if_pos hdist, if_neg (fun hc => hw hc.1), if_pos (And.intro hg (And.intro hp hrisk))]

noncomputable def c2player : GameObject :=
  { id := "player", x := 0, y := 0, vx := 0, vy := 0, mass := 8, radius := 5,
    type := .player, energy := some 55, maxEnergy := some 120,
    absorptionProgress := some 1.2 }

noncomputable def c2glow : GameObject :=
  { id := "star-c2", x := 0, y := 0, vx := 0, vy := 0, mass := 100, radius := 20,
    type := .star, isGlowing := true, chargingRate := some 8 }

/-- C2 counterexample: a stalled player with accumulated risk 1.2 near a
glowing body has its energy forced to 0 by the orbital update alone — no
collision check is involved — refuting "risk exceeding 1 does not by
itself set energy to 0". -/
theorem C2_counterexample :
    c2player.energy = some 55 ∧
    (handleOrbitalMechanics false c2player [c2glow]).energy = some 0 := by
  refine ⟨rfl, ?_⟩
  simp only [handleOrbitalMechanics, orbitalStep, c2player, c2glow,
    List.foldl_cons, List.foldl_nil]
  norm_num [ORBITAL_ABSORPTION_RATE]
  rw [if_neg (by decide : ¬("star-c2" = "player"))]

noncomputable def c2wglow : GameObject :=
  { id := "star-c2w", x := 0, y := 0, vx := 0, vy := 0, mass := 100, radius := 20,
    type := .star, isGlowing := true, chargingRate := some 8 }

noncomputable def c2wplayer : GameObject :=
  { id := "player", x := 0, y := 0, vx := 0, vy := 0, mass := 8, radius := 5,
    type := .player, energy := some 70, maxEnergy := some 120,
    absorptionProgress := some 1.2 }

noncomputable def c2state : CollisionState :=
  { objects := [c2wglow, c2wplayer], wormholes := [], toRemove := [], scoreIncrease := 0,
    rng := fun _ => 0, rngIdx := 0 }

/-- C2 witness: both halves of the amended claim at concrete inputs — a
stalled player with risk 1.2 near a glowing star loses all energy in the
orbital update, and contact while risk is 1.2 zeroes energy in the
collision pass without touching removals or score. -/
theorem C2_witness :
    ((c2wplayer.type = .player ∧ c2wglow.isGlowing = true ∧ ¬(c2wglow.id = c2wplayer.id) ∧
       dist2D c2wplayer.x c2wplayer.y c2wglow.x c2wglow.y <
         c2wglow.radius + c2wplayer.radius + 50 ∧
       1 < c2wplayer.absorptionProgress.getD 0 + ORBITAL_ABSORPTION_RATE) ∧
      (handleOrbitalMechanics false c2wplayer [c2wglow]).energy = some 0) ∧
    ((c2state.objects.get? 0 = some c2wglow ∧ c2state.objects.get? 1 = some c2wplayer ∧
       c2wglow.isGlowing = true ∧ ¬(c2wglow.type = .wormhole) ∧ c2wplayer.type = .player ∧
       1 < c2wplayer.absorptionProgress.getD 0 ∧
       dist2D c2wglow.x c2wglow.y c2wplayer.x c2wplayer.y <
         c2wglow.radius + c2wplayer.radius) ∧
      collidePair c2state 0 1 =
        { c2state with objects := c2state.objects.set 1 { c2wplayer with energy := some 0 } }) := by
  have hdistA : dist2D c2wplayer.x c2wplayer.y c2wglow.x c2wglow.y <
      c2wglow.radius + c2wplayer.radius + 50 := by
    norm_num [dist2D, c2wplayer, c2wglow]
  have hdistB : dist2D c2wglow.x c2wglow.y c2wplayer.x c2wplayer.y <
      c2wglow.radius + c2wplayer.radius := by
    norm_num [dist2D, c2wplayer, c2wglow]
  have hid : ¬(c2wglow.id = c2wplayer.id) := by simp [c2wglow, c2wplayer]
  have hriskA : 1 < c2wplayer.absorptionProgress.getD 0 + ORBITAL_ABSORPTION_RATE := by
    norm_num [c2wplayer, ORBITAL_ABSORPTION_RATE]
  have hriskB : 1 < c2wplayer.absorptionProgress.getD 0 := by
    norm_num [c2wplayer]
  refine ⟨⟨⟨rfl, rfl, hid, hdistA, hriskA⟩, ?_⟩, ⟨⟨rfl, rfl, rfl, by simp [c2wglow], rfl,
    hriskB, hdistB⟩, ?_⟩⟩
  · exact C2_risk_and_fatal_contact.1 c2wplayer c2wglow rfl rfl hid hdistA hriskA
  · exact C2_risk_and_fatal_contact.2 c2state 0 1 c2wglow c2wplayer rfl rfl rfl
      (by simp [c2wglow]) rfl hriskB hdistB

/-- One charging step keeps the energy accumulator inside `[0, me]`
provided the (defaulted) charging rate is nonnegative. -/
theorem chargeStep_bounds (obj : GameObject) (me acc : ℝ) (other : GameObject)
    (h0 : 0 ≤ acc) (h1 : acc ≤ me) (hr : 0 ≤ jsOr other.chargingRate 1) :
    0 ≤ chargeStep obj me acc other ∧ chargeStep obj me acc other ≤ me := by
  simp only [chargeStep]
  split_ifs with hcond hdist
  · have hfac : 0 ≤ 1 - dist2D obj.x obj.y other.x other.y / CHARGING_RADIUS := by
      have hR : (0:ℝ) < CHARGING_RADIUS := by norm_num [CHARGING_RADIUS]
      have hd1 : dist2D obj.x obj.y other.x other.y / CHARGING_RADIUS ≤ 1 :=
        (div_le_one hR).mpr (le_of_lt hdist.1)
      linarith
    constructor
    · exact le_min (le_trans h0 h1)
        (add_nonneg h0 (mul_nonneg (mul_nonneg hr hfac) (by norm_num)))
    · exact min_le_left _ _
  · exact ⟨h0, h1⟩
  · exact ⟨h0, h1⟩

/-- The whole charging fold of `updateEnergy` keeps the accumulator
inside `[0, me]`. -/
theorem chargeFold_bounds (obj : GameObject) (me : ℝ) :
    ∀ (l : List GameObject) (acc : ℝ), 0 ≤ acc → acc ≤ me →
      (∀ o ∈ l, 0 ≤ jsOr o.chargingRate 1) →
      0 ≤ l.foldl (chargeStep obj me) acc ∧ l.foldl (chargeStep obj me) acc ≤ me := by
  intro l
  induction l with
  | nil => intro acc h0 h1 _; exact ⟨h0, h1⟩
  | cons oth rest ih =>
    intro acc h0 h1 hr
    rw [List.foldl_cons]
    have hb := chargeStep_bounds obj me acc oth h0 h1 (hr oth (List.mem_cons_self oth rest))
    exact ih (chargeStep obj me acc oth) hb.1 hb.2
      (fun o ho => hr o (List.mem_cons_of_mem oth ho))

/-- C1 (amended): the per-tick decay and the charging accumulation of
`updateEnergy` keep a body's energy inside `[0, maxEnergy]` (given
nonnegative charging rates), and the absorption energy transfer of the
collision pass leaves the absorber's energy inside `[0, maxEnergy]`
(given nonnegative starting energies) — the transfer is capped by
`min(maxEnergy, ·)`.  The gravity-pull ability cost is *not* clamped and
can leave the player's energy negative: see `C1_counterexample`. -/
theorem C1_decay_and_charging_clamped :
    (∀ (obj : GameObject) (objects : List GameObject) (e me : ℝ),
      obj.energy = some e → obj.maxEnergy = some me →
      0 ≤ e → e ≤ me →
      (∀ o ∈ objects, 0 ≤ jsOr o.chargingRate 1) →
      ∃ e', (updateEnergy obj objects).energy = some e' ∧ 0 ≤ e' ∧ e' ≤ me) ∧
    (∀ (st : CollisionState) (i j : ℕ) (o1 o2 : GameObject),
      st.objects.get? i = some o1 → st.objects.get? j = some o2 →
      dist2D o1.x o1.y o2.x o2.y < o1.radius + o2.radius →
      ¬(o1.type = .wormhole ∧ o2.type = .player) →
      o1.isGlowing = false → o2.isGlowing = false →
      o2.mass < o1.mass →
      optTruthy o1.energy ∧ optTruthy o2.energy →
      0 ≤ o1.energy.getD 0 → 0 ≤ o2.energy.getD 0 → 0 ≤ o1.maxEnergy.getD 0 →
      ∃ e' : ℝ,
        collidePair st i j =
          { st with
            objects := st.objects.set i
              { o1 with mass := o1.mass + o2.mass * MASS_ABSORPTION_RATE,
                        radius := calculateRadius
                          (o1.mass + o2.mass * MASS_ABSORPTION_RATE) o1.type,
                        energy := some e' },
            toRemove := st.toRemove ++ [o2.id],
            scoreIncrease := st.scoreIncrease +
              (if o1.id = "player" then ((⌊o2.mass * 20⌋ : ℤ) : ℝ) else 0) } ∧
        0 ≤ e' ∧ e' ≤ o1.maxEnergy.getD 0) := by
  constructor
  · intro obj objects e me he hme h0 h1 hr
    unfold updateEnergy
    rw [he, hme]
    refine ⟨_, rfl, ?_⟩
    have hdecay0 : 0 ≤ max 0 (e - ENERGY_DECAY_RATE * 0.016) := le_max_left _ _
    have hdecay1 : max 0 (e - ENERGY_DECAY_RATE * 0.016) ≤ me := by
      apply max_le (le_trans h0 h1)
      have : (0:ℝ) ≤ ENERGY_DECAY_RATE * 0.016 := by norm_num [ENERGY_DECAY_RATE]
      linarith
    exact chargeFold_bounds obj me objects _ hdecay0 hdecay1 hr
  · intro st i j o1 o2 h1 h2 hdist hwp hg1 hg2 hm he he1 he2 hme
    refine ⟨min (o1.maxEnergy.getD 0)
      (o1.energy.getD 0 + o2.energy.getD 0 * ENERGY_ABSORPTION_RATE), ?_, ?_, ?_⟩
    · simp only [collidePair, h1, h2]
      rw [if_pos hdist, if_neg hwp, if_neg (by simp [hg1]), if_neg (by simp [hg2])]
      simp only [if_pos hm]
      rw [if_pos (And.intro hg2 hg1), if_pos he]
    · exact le_min hme
        (add_nonneg he1 (mul_nonneg he2 (by norm_num [ENERGY_ABSORPTION_RATE])))
    · exact min_le_left _ _

noncomputable def c1player : GameObject :=
  { id := "player", x := 0, y := 0, vx := 0, vy := 0, mass := 8, radius := 5,
    type := .player, energy := some 0.01, maxEnergy := some 120 }

/-- C1 counterexample: with the gravity-pull ability active and energy
`0.01 > 0`, `applyGravity` subtracts the unclamped ability cost
`GRAVITY_PULL_COST * 0.016 = 0.048`, leaving the player's energy negative
— outside `[0, maxEnergy]`. -/
theorem C1_counterexample :
    (applyGravity true c1player []).energy.getD 0 < 0 := by
  simp only [applyGravity, gravSum, List.foldl_nil, c1player]
  norm_num [GRAVITY_PULL_COST]

noncomputable def c1wobj : GameObject :=
  { id := "ai-c1", x := 0, y := 0, vx := 0, vy := 0, mass := 6, radius := 6,
    type := .ai, energy := some 80, maxEnergy := some 100 }

noncomputable def c1tP : GameObject :=
  { id := "player", x := 0, y := 0, vx := 0, vy := 0, mass := 10,
    radius := calculateRadius 10 .player, type := .player,
    energy := some 50, maxEnergy := some 120 }

noncomputable def c1tA : GameObject :=
  { id := "ai-c1t", x := 0, y := 0, vx := 0, vy := 0, mass := 2,
    radius := calculateRadius 2 .ai, type := .ai,
    energy := some 40, maxEnergy := some 100 }

noncomputable def c1tstate : CollisionState :=
  { objects := [c1tP, c1tA], wormholes := [], toRemove := [], scoreIncrease := 0,
    rng := fun _ => 0, rngIdx := 0 }

/-- C1 witness: a concrete energy-tracking body stays inside
`[0, maxEnergy]` across the decay-and-charging update, and a concrete
player (energy 50, maxEnergy 120) absorbing an AI (energy 40) gets a
transferred energy inside `[0, maxEnergy]`. -/
theorem C1_witness :
    ((c1wobj.energy = some 80 ∧ c1wobj.maxEnergy = some 100 ∧ (0:ℝ) ≤ 80 ∧ (80:ℝ) ≤ 100) ∧
      ∃ e', (updateEnergy c1wobj []).energy = some e' ∧ 0 ≤ e' ∧ e' ≤ 100) ∧
    ((c1tstate.objects.get? 0 = some c1tP ∧ c1tstate.objects.get? 1 = some c1tA ∧
      dist2D c1tP.x c1tP.y c1tA.x c1tA.y < c1tP.radius + c1tA.radius ∧
      ¬(c1tP.type = .wormhole ∧ c1tA.type = .player) ∧
      c1tP.isGlowing = false ∧ c1tA.isGlowing = false ∧ c1tA.mass < c1tP.mass ∧
      (optTruthy c1tP.energy ∧ optTruthy c1tA.energy) ∧
      0 ≤ c1tP.energy.getD 0 ∧ 0 ≤ c1tA.energy.getD 0 ∧ 0 ≤ c1tP.maxEnergy.getD 0) ∧
      ∃ e' : ℝ,
        collidePair c1tstate 0 1 =
          { c1tstate with
            objects := c1tstate.objects.set 0
              { c1tP with mass := c1tP.mass + c1tA.mass * MASS_ABSORPTION_RATE,
                          radius := calculateRadius
                            (c1tP.mass + c1tA.mass * MASS_ABSORPTION_RATE) c1tP.type,
                          energy := some e' },
            toRemove := c1tstate.toRemove ++ [c1tA.id],
            scoreIncrease := c1tstate.scoreIncrease +
              (if c1tP.id = "player" then ((⌊c1tA.mass * 20⌋ : ℤ) : ℝ) else 0) } ∧
        0 ≤ e' ∧ e' ≤ c1tP.maxEnergy.getD 0) := by
  have h6 : (6:ℝ) ≤ calculateRadius 10 .player := by
    unfold calculateRadius
    exact le_max_left _ _
  have h6a : (6:ℝ) ≤ calculateRadius 2 .ai := by
    unfold calculateRadius
    exact le_max_left _ _
  have hdist : dist2D c1tP.x c1tP.y c1tA.x c1tA.y < c1tP.radius + c1tA.radius := by
    show dist2D 0 0 0 0 < calculateRadius 10 .player + calculateRadius 2 .ai
    rw [show dist2D 0 0 0 0 = 0 by simp [dist2D]]
    linarith
  have hwp : ¬(c1tP.type = .wormhole ∧ c1tA.type = .player) := by simp [c1tP]
  have hm : c1tA.mass < c1tP.mass := by norm_num [c1tP, c1tA]
  have he : optTruthy c1tP.energy ∧ optTruthy c1tA.energy := by
    constructor <;> norm_num [optTruthy, c1tP, c1tA]
  have he1 : (0:ℝ) ≤ c1tP.energy.getD 0 := by norm_num [c1tP]
  have he2 : (0:ℝ) ≤ c1tA.energy.getD 0 := by norm_num [c1tA]
  have hme : (0:ℝ) ≤ c1tP.maxEnergy.getD 0 := by norm_num [c1tP]
  refine ⟨⟨⟨rfl, rfl, by norm_num, by norm_num⟩, ?_⟩,
    ⟨⟨rfl, rfl, hdist, hwp, rfl, rfl, hm, he, he1, he2, hme⟩, ?_⟩⟩
  · exact C1_decay_and_charging_clamped.1 c1wobj [] 80 100 rfl rfl (by norm_num)
      (by norm_num) (by intro o ho; cases ho)
  · exact C1_decay_and_charging_clamped.2 c1tstate 0 1 c1tP c1tA rfl rfl hdist hwp
      rfl rfl hm he he1 he2 hme

/-- Helper `crystalTouch` only touches the player's energy. -/
theorem crystalTouch_x (a : SpaceActivity) (p : GameObject) : (crystalTouch a p).x = p.x := by
  unfold crystalTouch; split_ifs <;> rfl

theorem crystalTouch_y (a : SpaceActivity) (p : GameObject) : (crystalTouch a p).y = p.y := by
  unfold crystalTouch; split_ifs <;> rfl

theorem crystalTouch_radius (a : SpaceActivity) (p : GameObject) :
    (crystalTouch a p).radius = p.radius := by
  unfold crystalTouch; split_ifs <;> rfl

/-- The activity pass never moves or resizes the player. -/
theorem handleSpaceActivities_frame (l : List SpaceActivity) :
    ∀ (p : GameObject) (s : ℝ),
      (handleSpaceActivities p s l).1.x = p.x ∧
      (handleSpaceActivities p s l).1.y = p.y ∧
      (handleSpaceActivities p s l).1.radius = p.radius := by
  induction l with
  | nil => intro p s; exact ⟨rfl, rfl, rfl⟩
  | cons a rest ih =>
    intro p s
    simp only [handleSpaceActivities]
    split_ifs with h
    · have hrest := ih (crystalTouch a p) (s + a.reward)
      exact ⟨by rw [hrest.1, crystalTouch_x], by rw [hrest.2.1, crystalTouch_y],
             by rw [hrest.2.2, crystalTouch_radius]⟩
    · exact ih p s

/-- The activity pass preserves the number of activities (none removed). -/
theorem handleSpaceActivities_length (l : List SpaceActivity) :
    ∀ (p : GameObject) (s : ℝ), ((handleSpaceActivities p s l).2.1).length = l.length := by
  induction l with
  | nil => intro p s; rfl
  | cons a rest ih =>
    intro p s
    simp only [handleSpaceActivities]
    split_ifs <;> simp [ih]

/-- Running the activity pass a second time on its own output changes
nothing: every in-contact activity is already discovered. -/
theorem handleSpaceActivities_idem (l : List SpaceActivity) :
    ∀ (p : GameObject) (s : ℝ),
      handleSpaceActivities (handleSpaceActivities p s l).1
        (handleSpaceActivities p s l).2.2 (handleSpaceActivities p s l).2.1 =
      handleSpaceActivities p s l := by
  induction l with
  | nil => intro p s; rfl
  | cons a rest ih =>
    intro p s
    by_cases h : dist2D p.x p.y a.x a.y < a.radius + p.radius ∧ a.discovered = false
    · simp only [handleSpaceActivities, if_pos h]
      rw [ih (crystalTouch a p) (s + a.reward)]
      simp
    · simp only [handleSpaceActivities, if_neg h]
      have hf := handleSpaceActivities_frame rest p s
      rw [if_neg, ih p s]
      rw [hf.1, hf.2.1, hf.2.2]
      exact h

/-- C9: first contact with an undiscovered energy crystal sets the
player's energy to exactly `maxEnergy`, flips `discovered` to `true` and
adds the reward to the score once; re-running the pass on its own output
changes nothing (discovery is idempotent), and activities are never
removed (the list length is preserved). -/
theorem C9_energy_crystal_discovery :
    (∀ (p : GameObject) (s : ℝ) (a : SpaceActivity),
      dist2D p.x p.y a.x a.y < a.radius + p.radius → a.discovered = false →
      a.type = .energyCrystal →
      handleSpaceActivities p s [a] =
        ({ p with energy := p.maxEnergy }, [{ a with discovered := true }], s + a.reward)) ∧
    (∀ (p : GameObject) (s : ℝ) (l : List SpaceActivity),
      handleSpaceActivities (handleSpaceActivities p s l).1
        (handleSpaceActivities p s l).2.2 (handleSpaceActivities p s l).2.1 =
      handleSpaceActivities p s l) ∧
    (∀ (p : GameObject) (s : ℝ) (l : List SpaceActivity),
      ((handleSpaceActivities p s l).2.1).length = l.length) := by
  refine ⟨?_, fun p s l => handleSpaceActivities_idem l p s,
    fun p s l => handleSpaceActivities_length l p s⟩
  · intro p s a hdist hdisc htype
    simp only [handleSpaceActivities, if_pos (And.intro hdist hdisc), crystalTouch,
      if_pos htype]

noncomputable def c9player : GameObject :=
  { id := "player", x := 0, y := 0, vx := 0, vy := 0, mass := 8, radius := 6,
    type := .player, energy := some 10, maxEnergy := some 120 }

noncomputable def c9crystal : SpaceActivity :=
  { id := "activity-9", type := .energyCrystal, x := 3, y := 4, radius := 15,
    reward := 75, discovered := false }

/-- C9 witness: a concrete undiscovered energy crystal at distance 5 is
discovered, restores the player's energy to `maxEnergy` and adds its
reward of 75 once. -/
theorem C9_witness :
    (dist2D c9player.x c9player.y c9crystal.x c9crystal.y <
       c9crystal.radius + c9player.radius ∧
     c9crystal.discovered = false ∧ c9crystal.type = .energyCrystal) ∧
    handleSpaceActivities c9player 0 [c9crystal] =
      ({ c9player with energy := c9player.maxEnergy },
       [{ c9crystal with discovered := true }], 0 + c9crystal.reward) := by
  have hdist : dist2D c9player.x c9player.y c9crystal.x c9crystal.y <
      c9crystal.radius + c9player.radius := by
    have h5 : dist2D c9player.x c9player.y c9crystal.x c9crystal.y = 5 := by
      show Real.sqrt ((3 - 0) * (3 - 0) + (4 - 0) * (4 - 0)) = 5
      rw [show ((3:ℝ) - 0) * (3 - 0) + (4 - 0) * (4 - 0) = 5 ^ 2 by norm_num]
      exact Real.sqrt_sq (by norm_num)
    rw [h5]
    norm_num [c9player, c9crystal]
  exact ⟨⟨hdist, rfl, rfl⟩,
    C9_energy_crystal_discovery.1 c9player 0 c9crystal hdist rfl rfl⟩

/-- The debris radius formula never drops below its floor of 2. -/
theorem two_le_calculateRadius_debris (m : ℝ) : 2 ≤ calculateRadius m .debris := by
  unfold calculateRadius
  exact le_max_left _ _

/-- The player radius formula never drops below its floor of 6. -/
theorem six_le_calculateRadius_player (m : ℝ) : 6 ≤ calculateRadius m .player := by
  unfold calculateRadius
  exact le_max_left _ _

/-- The wormhole radius formula never drops below its floor of 12. -/
theorem twelve_le_calculateRadius_wormhole (m : ℝ) : 12 ≤ calculateRadius m .wormhole := by
  unfold calculateRadius
  exact le_max_left _ _

/-- C3 (amended): for a collision pass over exactly one contacting pair of
non-glowing bodies (heavier first), the heavier body absorbs the lighter:
its mass becomes `old + 0.8 × absorbed`, the lighter body's id is appended
to the removal set while the body itself stays in the list until the
deferred filter, and the score grows by `⌊absorbed mass × 20⌋` exactly
when the absorber is the player.  The original claim's further clause —
that a pair referencing an id already scheduled for removal is skipped or
treated as already gone — fails: see `C3_counterexample`, where a body
already scheduled for removal has its mass transferred a second time in
the same pass. -/
theorem C3_pair_absorption :
    ∀ (st : CollisionState) (b1 b2 : GameObject),
      st.objects = [b1, b2] →
      b2.mass < b1.mass →
      b1.isGlowing = false → b2.isGlowing = false →
      ¬(b1.type = .wormhole ∧ b2.type = .player) →
      dist2D b1.x b1.y b2.x b2.y < b1.radius + b2.radius →
      (handleCollisions st).toRemove = st.toRemove ++ [b2.id] ∧
      ((handleCollisions st).objects.getD 0 dummyObject).mass =
        b1.mass + b2.mass * MASS_ABSORPTION_RATE ∧
      ((handleCollisions st).objects.getD 1 dummyObject).id = b2.id ∧
      (handleCollisions st).objects.length = 2 ∧
      (handleCollisions st).scoreIncrease = st.scoreIncrease +
        (if b1.id = "player" then ((⌊b2.mass * 20⌋ : ℤ) : ℝ) else 0) := by
  intro st b1 b2 hobjs hm hg1 hg2 hwp hdist
  have hget0 : st.objects.get? 0 = some b1 := by rw [hobjs]; rfl
  have hget1 : st.objects.get? 1 = some b2 := by rw [hobjs]; rfl
  have hlen : st.objects.length = 2 := by rw [hobjs]; rfl
  have hcol : handleCollisions st = collidePair st 0 1 := by
    unfold handleCollisions
    rw [hlen]
    rfl
  rw [hcol]
  simp only [collidePair, hget0, hget1]
  rw [if_pos hdist, if_neg hwp, if_neg (by simp [hg1]), if_neg (by simp [hg2])]
  simp only [if_pos hm]
  rw [if_pos (And.intro hg2 hg1)]
  refine ⟨rfl, ?_, ?_, ?_, rfl⟩
  · rw [hobjs]
    split_ifs <;> rfl
  · rw [hobjs]
    split_ifs <;> rfl
  · rw [hobjs]
    split_ifs <;> rfl

noncomputable def c3A : GameObject :=
  { id := "A", x := 0, y := 0, vx := 0, vy := 0, mass := 10,
    radius := calculateRadius 10 .debris, type := .debris }

noncomputable def c3B : GameObject :=
  { id := "B", x := 0, y := 0, vx := 0, vy := 0, mass := 2,
    radius := calculateRadius 2 .debris, type := .debris }

noncomputable def c3C : GameObject :=
  { id := "C", x := 0, y := 0, vx := 0, vy := 0, mass := 16,
    radius := calculateRadius 16 .debris, type := .debris }

noncomputable def c3state : CollisionState :=
  { objects := [c3A, c3B, c3C], wormholes := [], toRemove := [], scoreIncrease := 0,
    rng := fun _ => 0, rngIdx := 0 }

/-- Evaluation of one pair step when the first body is strictly heavier:
the first body absorbs the second. -/
theorem collidePair_absorb_fst (st : CollisionState) (i j : ℕ) (o1 o2 : GameObject)
    (h1 : st.objects.get? i = some o1) (h2 : st.objects.get? j = some o2)
    (hdist : dist2D o1.x o1.y o2.x o2.y < o1.radius + o2.radius)
    (hwp : ¬(o1.type = .wormhole ∧ o2.type = .player))
    (hg1 : o1.isGlowing = false) (hg2 : o2.isGlowing = false)
    (hm : o2.mass < o1.mass) (he : ¬(optTruthy o1.energy ∧ optTruthy o2.energy)) :
    collidePair st i j =
      { st with
        objects := st.objects.set i
          { o1 with mass := o1.mass + o2.mass * MASS_ABSORPTION_RATE,
                    radius := calculateRadius (o1.mass + o2.mass * MASS_ABSORPTION_RATE) o1.type },
        toRemove := st.toRemove ++ [o2.id],
        scoreIncrease := st.scoreIncrease +
          (if o1.id = "player" then ((⌊o2.mass * 20⌋ : ℤ) : ℝ) else 0) } := by
  simp only [collidePair, h1, h2]
  rw [if_pos hdist, if_neg hwp, if_neg (by simp [hg1]), if_neg (by simp [hg2])]
  simp only [if_pos hm]
  rw [if_pos (And.intro hg2 hg1), if_neg he]

/-- Evaluation of one pair step when the first body is not strictly
heavier: the second body absorbs the first. -/
theorem collidePair_absorb_snd (st : CollisionState) (i j : ℕ) (o1 o2 : GameObject)
    (h1 : st.objects.get? i = some o1) (h2 : st.objects.get? j = some o2)
    (hdist : dist2D o1.x o1.y o2.x o2.y < o1.radius + o2.radius)
    (hwp : ¬(o1.type = .wormhole ∧ o2.type = .player))
    (hg1 : o1.isGlowing = false) (hg2 : o2.isGlowing = false)
    (hm : ¬(o2.mass < o1.mass)) (he : ¬(optTruthy o2.energy ∧ optTruthy o1.energy)) :
    collidePair st i j =
      { st with
        objects := st.objects.set j
          { o2 with mass := o2.mass + o1.mass * MASS_ABSORPTION_RATE,
                    radius := calculateRadius (o2.mass + o1.mass * MASS_ABSORPTION_RATE) o2.type },
        toRemove := st.toRemove ++ [o1.id],
        scoreIncrease := st.scoreIncrease +
          (if o2.id = "player" then ((⌊o1.mass * 20⌋ : ℤ) : ℝ) else 0) } := by
  simp only [collidePair, h1, h2]
  rw [if_pos hdist, if_neg hwp, if_neg (by simp [hg1]), if_neg (by simp [hg2])]
  simp only [if_neg hm]
  rw [if_pos (And.intro hg1 hg2), if_neg he]

noncomputable def c3A' : GameObject :=
  { c3A with mass := 10 + 2 * MASS_ABSORPTION_RATE,
             radius := calculateRadius (10 + 2 * MASS_ABSORPTION_RATE) .debris }

noncomputable def c3C' : GameObject :=
  { c3C with mass := 16 + (10 + 2 * MASS_ABSORPTION_RATE) * MASS_ABSORPTION_RATE,
             radius := calculateRadius
               (16 + (10 + 2 * MASS_ABSORPTION_RATE) * MASS_ABSORPTION_RATE) .debris }

noncomputable def c3st1 : CollisionState :=
  { c3state with objects := [c3A', c3B, c3C], toRemove := ["B"] }

noncomputable def c3st2 : CollisionState :=
  { c3state with objects := [c3A', c3B, c3C'], toRemove := ["B", "A"] }

/-- C3 counterexample: with three mutually contacting bodies `A`(10),
`B`(2), `C`(16), the pass absorbs `B` into `A` (A becomes 11.6), then `A`
into `C` (C becomes 25.28), and then still processes the pair `(B, C)`
although `B` is already scheduled for removal: `B`'s id is pushed a second
time and its mass transferred a second time, leaving `C` at
`25.28 + 1.6 = 26.88`.  Pairs referencing an already-scheduled id are
neither skipped nor treated as gone. -/
theorem C3_counterexample :
    (handleCollisions c3state).toRemove = ["B", "A", "B"] ∧
    ((handleCollisions c3state).objects.getD 2 dummyObject).mass = 26.88 := by
  have hrA := two_le_calculateRadius_debris 10
  have hrB := two_le_calculateRadius_debris 2
  have hrC := two_le_calculateRadius_debris 16
  have hrA' := two_le_calculateRadius_debris (10 + 2 * MASS_ABSORPTION_RATE)
  have hrC' := two_le_calculateRadius_debris
    (16 + (10 + 2 * MASS_ABSORPTION_RATE) * MASS_ABSORPTION_RATE)
  have hd0 : dist2D 0 0 0 0 = 0 := by simp [dist2D]
  have hcol : handleCollisions c3state =
      collidePair (collidePair (collidePair c3state 0 1) 0 2) 1 2 := by
    unfold handleCollisions
    rfl
  have h1 : collidePair c3state 0 1 = c3st1 := by
    rw [collidePair_absorb_fst c3state 0 1 c3A c3B rfl rfl
      (by show dist2D 0 0 0 0 < calculateRadius 10 .debris + calculateRadius 2 .debris
          rw [hd0]; linarith)
      (by simp [c3A]) rfl rfl (by norm_num [c3A, c3B])
      (by simp [optTruthy, c3A])]
    simp only [c3state, c3st1, c3A', List.set]
    norm_num [c3A, c3B, MASS_ABSORPTION_RATE, show ¬("A" = "player") from by decide]
  have h2 : collidePair c3st1 0 2 = c3st2 := by
    rw [collidePair_absorb_snd c3st1 0 2 c3A' c3C rfl rfl
      (by show dist2D 0 0 0 0 < calculateRadius (10 + 2 * MASS_ABSORPTION_RATE) .debris +
            calculateRadius 16 .debris
          rw [hd0]; linarith)
      (by simp [c3A', c3A]) rfl rfl
      (by norm_num [c3A', c3A, c3C, MASS_ABSORPTION_RATE])
      (by simp [optTruthy, c3C])]
    simp only [c3st1, c3state, c3st2, c3C', List.set]
    norm_num [c3A', c3A, c3C, MASS_ABSORPTION_RATE, show ¬("C" = "player") from by decide]
  have h3 : collidePair c3st2 1 2 =
      { c3st2 with
        objects := [c3A', c3B,
          { c3C' with
            mass := c3C'.mass + 2 * MASS_ABSORPTION_RATE,
            radius := calculateRadius (c3C'.mass + 2 * MASS_ABSORPTION_RATE) .debris }],
        toRemove := ["B", "A", "B"] } := by
    rw [collidePair_absorb_snd c3st2 1 2 c3B c3C' rfl rfl
      (by show dist2D 0 0 0 0 < calculateRadius 2 .debris + calculateRadius
            (16 + (10 + 2 * MASS_ABSORPTION_RATE) * MASS_ABSORPTION_RATE) .debris
          rw [hd0]; linarith)
      (by simp [c3B]) rfl rfl
      (by norm_num [c3B, c3C', c3C, MASS_ABSORPTION_RATE])
      (by simp [optTruthy, c3C', c3C, c3B])]
    simp only [c3st2, c3state, c3C', c3B, List.set]
    norm_num [c3C, MASS_ABSORPTION_RATE, show ¬("C" = "player") from by decide]
  rw [hcol, h1, h2, h3]
  constructor
  · rfl
  · have hm3 : ({ c3C' with
        mass := c3C'.mass + 2 * MASS_ABSORPTION_RATE,
        radius := calculateRadius (c3C'.mass + 2 * MASS_ABSORPTION_RATE) ObjectType.debris } :
          GameObject).mass = 26.88 := by
      norm_num [c3C', c3C, MASS_ABSORPTION_RATE]
    exact hm3

noncomputable def c3wP : GameObject :=
  { id := "player", x := 0, y := 0, vx := 0, vy := 0, mass := 10,
    radius := calculateRadius 10 .player, type := .player,
    energy := some 50, maxEnergy := some 120 }

noncomputable def c3wD : GameObject :=
  { id := "debris-1", x := 0, y := 0, vx := 0, vy := 0, mass := 2,
    radius := calculateRadius 2 .debris, type := .debris }

noncomputable def c3wstate : CollisionState :=
  { objects := [c3wP, c3wD], wormholes := [], toRemove := [], scoreIncrease := 0,
    rng := fun _ => 0, rngIdx := 0 }

/-- C3 witness: the spec's scenario — the player (mass 10) in contact with
a mass-2 debris ends at mass `10 + 2·0.8 = 11.6`, the debris id is in the
removal set, and the score increases by `⌊2·20⌋ = 40`. -/
theorem C3_witness :
    (c3wstate.objects = [c3wP, c3wD] ∧ c3wD.mass < c3wP.mass ∧
     c3wP.isGlowing = false ∧ c3wD.isGlowing = false ∧
     ¬(c3wP.type = .wormhole ∧ c3wD.type = .player) ∧
     dist2D c3wP.x c3wP.y c3wD.x c3wD.y < c3wP.radius + c3wD.radius) ∧
    (handleCollisions c3wstate).toRemove = [] ++ [c3wD.id] ∧
    ((handleCollisions c3wstate).objects.getD 0 dummyObject).mass = 11.6 ∧
    (handleCollisions c3wstate).scoreIncrease = 40 := by
  have h6 := six_le_calculateRadius_player 10
  have h2 := two_le_calculateRadius_debris 2
  have hdist : dist2D c3wP.x c3wP.y c3wD.x c3wD.y < c3wP.radius + c3wD.radius := by
    show dist2D 0 0 0 0 < calculateRadius 10 .player + calculateRadius 2 .debris
    rw [show dist2D 0 0 0 0 = 0 by simp [dist2D]]
    linarith
  have hm : c3wD.mass < c3wP.mass := by norm_num [c3wP, c3wD]
  have hwp : ¬(c3wP.type = .wormhole ∧ c3wD.type = .player) := by simp [c3wP]
  have hc := C3_pair_absorption c3wstate c3wP c3wD rfl hm rfl rfl hwp hdist
  refine ⟨⟨rfl, hm, rfl, rfl, hwp, hdist⟩, ?_, ?_, ?_⟩
  · rw [hc.1]
    rfl
  · rw [hc.2.1]
    norm_num [c3wP, c3wD, MASS_ABSORPTION_RATE]
  · rw [hc.2.2.2.2]
    norm_num [c3wstate, c3wP, c3wD]

/-- C4 (amended): the wormhole teleport fires only for the pair order in
which the wormhole is the first member (`obj1`) and the player the second
(`obj2`) — see `C4_counterexample` for the reverse order, where nothing
happens.  When it fires and another wormhole exists, the player is moved
to within ±50 per axis of a randomly chosen wormhole *other* than the one
touched, both velocity components are halved, and the pair is exempt from
absorption (removal set and score untouched). -/
theorem C4_wormhole_teleport :
    ∀ (st : CollisionState) (i j : ℕ) (w p : GameObject),
      st.objects.get? i = some w → st.objects.get? j = some p →
      w.type = .wormhole → p.type = .player →
      dist2D w.x w.y p.x p.y < w.radius + p.radius →
      0 < (st.wormholes.filter fun x => ¬(x.id = w.id)).length →
      0 ≤ st.rng st.rngIdx → st.rng st.rngIdx < 1 →
      0 ≤ st.rng (st.rngIdx + 1) → st.rng (st.rngIdx + 1) < 1 →
      0 ≤ st.rng (st.rngIdx + 2) → st.rng (st.rngIdx + 2) < 1 →
      ∃ t : GameObject,
        t ∈ st.wormholes.filter (fun x => ¬(x.id = w.id)) ∧ ¬(t.id = w.id) ∧
        collidePair st i j =
          { st with
            objects := st.objects.set j
              { p with x := t.x + (st.rng (st.rngIdx + 1) - 0.5) * 100,
                       y := t.y + (st.rng (st.rngIdx + 2) - 0.5) * 100,
                       vx := p.vx * 0.5, vy := p.vy * 0.5 },
            rngIdx := st.rngIdx + 3 } ∧
        |(t.x + (st.rng (st.rngIdx + 1) - 0.5) * 100) - t.x| ≤ 50 ∧
        |(t.y + (st.rng (st.rngIdx + 2) - 0.5) * 100) - t.y| ≤ 50 := by
  intro st i j w p hw1 hp1 hwt hpt hdist hlen hr0 hr0' hr1 hr1' hr2 hr2'
  set A := st.wormholes.filter (fun x => ¬(x.id = w.id)) with hA
  set k := (⌊st.rng st.rngIdx * (A.length : ℝ)⌋).toNat with hk
  have hkA : k < A.length := by
    have hfl : ⌊st.rng st.rngIdx * (A.length : ℝ)⌋ < (A.length : ℤ) := by
      apply Int.floor_lt.mpr
      push_cast
      calc st.rng st.rngIdx * (A.length : ℝ) < 1 * (A.length : ℝ) :=
            mul_lt_mul_of_pos_right hr0' (by exact_mod_cast hlen)
        _ = (A.length : ℝ) := one_mul _
    have hfl0 : 0 ≤ ⌊st.rng st.rngIdx * (A.length : ℝ)⌋ :=
      Int.floor_nonneg.mpr (mul_nonneg hr0 (by positivity))
    omega
  have hgetA : A.getD k dummyObject = A[k] := by
    rw [List.getD_eq_getElem?_getD, List.getElem?_eq_getElem hkA]
    rfl
  have hmem : A.getD k dummyObject ∈ A := by
    rw [hgetA]
    exact List.getElem_mem hkA
  have hid : ¬((A.getD k dummyObject).id = w.id) := by
    have := (List.mem_filter.mp hmem).2
    simpa using this
  refine ⟨A.getD k dummyObject, hmem, hid, ?_, ?_, ?_⟩
  · simp only [collidePair, hw1, hp1]
    rw [if_pos hdist, if_pos (And.intro hwt hpt), ← hA, if_pos hlen, ← hk]
  · rw [add_sub_cancel_left, abs_le]
    constructor <;> nlinarith
  · rw [add_sub_cancel_left, abs_le]
    constructor <;> nlinarith

noncomputable def c4P : GameObject :=
  { id := "player", x := 0, y := 0, vx := 1, vy := 1, mass := 8,
    radius := calculateRadius 8 .player, type := .player,
    energy := some 80, maxEnergy := some 120 }

noncomputable def c4W1 : GameObject :=
  { id := "wormhole-1", x := 0, y := 0, vx := 0, vy := 0, mass := 20,
    radius := calculateRadius 20 .wormhole, type := .wormhole,
    isGlowing := true, chargingRate := some 6 }

noncomputable def c4W2 : GameObject :=
  { id := "wormhole-2", x := 500, y := 500, vx := 0, vy := 0, mass := 20,
    radius := calculateRadius 20 .wormhole, type := .wormhole,
    isGlowing := true, chargingRate := some 6 }

noncomputable def c4state : CollisionState :=
  { objects := [c4P, c4W1], wormholes := [c4W1, c4W2], toRemove := [], scoreIncrease := 0,
    rng := fun _ => 0.5, rngIdx := 0 }

/-- C4 counterexample: the player is in contact with a wormhole and
another wormhole exists, yet because the player precedes the wormhole in
the body array (`obj1` = player, `obj2` = wormhole) the teleport branch
does not match and the collision pass leaves the state completely
unchanged — no teleport, no velocity damping. -/
theorem C4_counterexample :
    dist2D c4P.x c4P.y c4W1.x c4W1.y < c4P.radius + c4W1.radius ∧
    (c4state.wormholes.filter fun x => ¬(x.id = c4W1.id)).length = 1 ∧
    handleCollisions c4state = c4state := by
  have h6 := six_le_calculateRadius_player 8
  have h12 := twelve_le_calculateRadius_wormhole 20
  have hdist : dist2D c4P.x c4P.y c4W1.x c4W1.y < c4P.radius + c4W1.radius := by
    show dist2D 0 0 0 0 < calculateRadius 8 .player + calculateRadius 20 .wormhole
    rw [show dist2D 0 0 0 0 = 0 by simp [dist2D]]
    linarith
  refine ⟨hdist, ?_, ?_⟩
  · simp [c4state, c4W1, c4W2]
  · have hcol : handleCollisions c4state = collidePair c4state 0 1 := by
      unfold handleCollisions
      rfl
    rw [hcol]
    simp only [collidePair, show c4state.objects.get? 0 = some c4P from rfl,
      show c4state.objects.get? 1 = some c4W1 from rfl]
    rw [if_pos hdist, if_neg (by simp [c4P]), if_neg (by simp [c4P]),
      if_neg (by norm_num [c4P])]
    simp only [if_neg (show ¬(c4W1.mass < c4P.mass) by norm_num [c4P, c4W1])]
    rw [if_neg (by simp [c4W1])]

noncomputable def c4wW1 : GameObject :=
  { id := "wormhole-1", x := 0, y := 0, vx := 0, vy := 0, mass := 20,
    radius := calculateRadius 20 .wormhole, type := .wormhole,
    isGlowing := true, chargingRate := some 6 }

noncomputable def c4wW2 : GameObject :=
  { id := "wormhole-2", x := 300, y := 400, vx := 0, vy := 0, mass := 20,
    radius := calculateRadius 20 .wormhole, type := .wormhole,
    isGlowing := true, chargingRate := some 6 }

noncomputable def c4wP : GameObject :=
  { id := "player", x := 0, y := 0, vx := 2, vy := -1, mass := 8,
    radius := calculateRadius 8 .player, type := .player,
    energy := some 80, maxEnergy := some 120 }

noncomputable def c4wstate : CollisionState :=
  { objects := [c4wW1, c4wP], wormholes := [c4wW1, c4wW2], toRemove := [], scoreIncrease := 0,
    rng := fun _ => 0.5, rngIdx := 0 }

/-- C4 witness: with the wormhole first in the pair and a second wormhole
present, the teleport fires — the player lands within ±50 per axis of a
wormhole other than the touched one and its velocity is halved. -/
theorem C4_witness :
    (c4wstate.objects.get? 0 = some c4wW1 ∧ c4wstate.objects.get? 1 = some c4wP ∧
     c4wW1.type = .wormhole ∧ c4wP.type = .player ∧
     dist2D c4wW1.x c4wW1.y c4wP.x c4wP.y < c4wW1.radius + c4wP.radius ∧
     0 < (c4wstate.wormholes.filter fun x => ¬(x.id = c4wW1.id)).length) ∧
    (∃ t : GameObject,
      t ∈ c4wstate.wormholes.filter (fun x => ¬(x.id = c4wW1.id)) ∧ ¬(t.id = c4wW1.id) ∧
      collidePair c4wstate 0 1 =
        { c4wstate with
          objects := c4wstate.objects.set 1
            { c4wP with x := t.x + (c4wstate.rng (c4wstate.rngIdx + 1) - 0.5) * 100,
                        y := t.y + (c4wstate.rng (c4wstate.rngIdx + 2) - 0.5) * 100,
                        vx := c4wP.vx * 0.5, vy := c4wP.vy * 0.5 },
          rngIdx := c4wstate.rngIdx + 3 } ∧
      |(t.x + (c4wstate.rng (c4wstate.rngIdx + 1) - 0.5) * 100) - t.x| ≤ 50 ∧
      |(t.y + (c4wstate.rng (c4wstate.rngIdx + 2) - 0.5) * 100) - t.y| ≤ 50) := by
  have h12 := twelve_le_calculateRadius_wormhole 20
  have h6 := six_le_calculateRadius_player 8
  have hdist : dist2D c4wW1.x c4wW1.y c4wP.x c4wP.y < c4wW1.radius + c4wP.radius := by
    show dist2D 0 0 0 0 < calculateRadius 20 .wormhole + calculateRadius 8 .player
    rw [show dist2D 0 0 0 0 = 0 by simp [dist2D]]
    linarith
  have hlen : 0 < (c4wstate.wormholes.filter fun x => ¬(x.id = c4wW1.id)).length := by
    simp [c4wstate, c4wW1, c4wW2]
  refine ⟨⟨rfl, rfl, rfl, rfl, hdist, hlen⟩, ?_⟩
  exact C4_wormhole_teleport c4wstate 0 1 c4wW1 c4wP rfl rfl rfl rfl hdist hlen
    (by norm_num [c4wstate]) (by norm_num [c4wstate]) (by norm_num [c4wstate])
    (by norm_num [c4wstate]) (by norm_num [c4wstate]) (by norm_num [c4wstate])

/-- Seeking motion never changes the AI state. -/
theorem aiSeek_aiState (f : ℝ) (a t : GameObject) : (aiSeek f a t).aiState = a.aiState := by
  simp only [aiSeek]
  split_ifs <;> rfl

/-- The flee loop never changes the AI state. -/
theorem aiFleeFold_aiState (l : List GameObject) :
    ∀ a : GameObject, (l.foldl aiFleeStep a).aiState = a.aiState := by
  induction l with
  | nil => intro a; rfl
  | cons x rest ih =>
    intro a
    rw [List.foldl_cons, ih]
    simp only [aiFleeStep]
    split_ifs <;> rfl

/-- C8 (amended): for an AI that passes the energy and throttle guards,
the chosen state follows the strict priority charging > fleeing > hunting
> exploring, as implemented: charging is entered when energy is below 30
*and* some glowing body lies within the 300-unit proximity filter (the
target being the first such body in array order, not the nearest);
fleeing is entered when any strictly heavier body lies within 300 (the
150-unit danger radius only gates the applied flee force, not the state);
hunting when a lighter non-glowing body lies within 300; exploring
otherwise.  The original claim's "nearest" targeting fails: see
`C8_counterexample`. -/
theorem C8_ai_priority :
    ∀ (now r1 r2 r3 : ℝ) (ai : GameObject) (objects : List GameObject),
      ¬(ai.energy.getD 0 = 0) → ¬(now - ai.lastMovementTime.getD 0 < 100) →
      (((aiAfterGrowth now ai).energy.getD 0 < 30 ∧
          (aiGlowing (aiAfterGrowth now ai) objects).isEmpty = false) →
        (updateAI now r1 r2 r3 ai objects).aiState = some .charging) ∧
      (¬((aiAfterGrowth now ai).energy.getD 0 < 30 ∧
          (aiGlowing (aiAfterGrowth now ai) objects).isEmpty = false) →
        (aiLarger (aiAfterGrowth now ai) objects).isEmpty = false →
        (updateAI now r1 r2 r3 ai objects).aiState = some .fleeing) ∧
      (¬((aiAfterGrowth now ai).energy.getD 0 < 30 ∧
          (aiGlowing (aiAfterGrowth now ai) objects).isEmpty = false) →
        (aiLarger (aiAfterGrowth now ai) objects).isEmpty = true →
        (aiSmaller (aiAfterGrowth now ai) objects).isEmpty = false →
        (updateAI now r1 r2 r3 ai objects).aiState = some .hunting) ∧
      (¬((aiAfterGrowth now ai).energy.getD 0 < 30 ∧
          (aiGlowing (aiAfterGrowth now ai) objects).isEmpty = false) →
        (aiLarger (aiAfterGrowth now ai) objects).isEmpty = true →
        (aiSmaller (aiAfterGrowth now ai) objects).isEmpty = true →
        (updateAI now r1 r2 r3 ai objects).aiState = some .exploring) := by
  intro now r1 r2 r3 ai objects h1 h2
  refine ⟨?_, ?_, ?_, ?_⟩
  · intro hc
    simp only [updateAI]
    rw [if_neg h1, if_neg h2, if_pos hc]
    cases aiGlowing (aiAfterGrowth now ai) objects with
    | nil => rfl
    | cons t rest => exact (aiSeek_aiState 0.1 _ t).trans rfl
  · intro hnc hlf
    simp only [updateAI]
    rw [if_neg h1, if_neg h2, if_neg hnc, if_pos hlf, aiFleeFold_aiState]
  · intro hnc hle hsf
    simp only [updateAI]
    rw [if_neg h1, if_neg h2, if_neg hnc, if_neg (by simp [hle]), if_pos hsf]
    cases aiSmaller (aiAfterGrowth now ai) objects with
    | nil => rfl
    | cons t rest => exact (aiSeek_aiState 0.08 _ t).trans rfl
  · intro hnc hle hse
    simp only [updateAI]
    rw [if_neg h1, if_neg h2, if_neg hnc, if_neg (by simp [hle]), if_neg (by simp [hse])]
    split_ifs <;> rfl

theorem sqrt_2500 : Real.sqrt 2500 = 50 := by
  rw [show (2500:ℝ) = 50 ^ 2 by norm_num]
  exact Real.sqrt_sq (by norm_num)

theorem sqrt_40000 : Real.sqrt 40000 = 200 := by
  rw [show (40000:ℝ) = 200 ^ 2 by norm_num]
  exact Real.sqrt_sq (by norm_num)

noncomputable def c8ai : GameObject :=
  { id := "ai-8", x := 0, y := 0, vx := 0, vy := 0, mass := 5,
    radius := calculateRadius 5 .ai, type := .ai, energy := some 10, maxEnergy := some 100,
    lastMovementTime := some 0, aiState := some .exploring }

noncomputable def c8far : GameObject :=
  { id := "star-far", x := 0, y := 200, vx := 0, vy := 0, mass := 100,
    radius := calculateRadius 100 .star, type := .star, isGlowing := true,
    chargingRate := some 8 }

noncomputable def c8near : GameObject :=
  { id := "star-near", x := 0, y := -50, vx := 0, vy := 0, mass := 80,
    radius := calculateRadius 80 .star, type := .star, isGlowing := true,
    chargingRate := some 8 }

noncomputable def c8grown : GameObject :=
  { c8ai with lastMovementTime := some 1000, mass := 5 + AI_GROWTH_RATE,
              radius := calculateRadius (5 + AI_GROWTH_RATE) .ai }

theorem c8_grow : aiAfterGrowth 1000 c8ai = c8grown := by
  simp only [aiAfterGrowth, c8ai, c8grown]
  norm_num [AI_MAX_MASS, AI_GROWTH_RATE]

theorem c8_nearby : aiNearby c8grown [c8ai, c8far, c8near] = [c8far, c8near] := by
  simp only [aiNearby, List.filter_cons, List.filter_nil, dist2D, c8grown, c8ai, c8far, c8near,
    decide_eq_true_eq]
  norm_num [sqrt_2500, sqrt_40000, show ¬("star-far" = "ai-8") from by decide,
    show ¬("star-near" = "ai-8") from by decide]

theorem c8_glowing : aiGlowing c8grown [c8ai, c8far, c8near] = [c8far, c8near] := by
  unfold aiGlowing
  rw [c8_nearby]
  simp [c8far, c8near]

/-- C8 counterexample: with energy 10 (below the threshold) and two
glowing bodies within 300, the AI enters `charging` but accelerates
toward the *first* glowing body in array order (at distance 200, `vy`
becomes +0.1) even though the nearest glowing body (distance 50) lies in
the opposite direction — refuting "seeking the nearest glowing body". -/
theorem C8_counterexample :
    (updateAI 1000 1 1 1 c8ai [c8ai, c8far, c8near]).aiState = some .charging ∧
    (updateAI 1000 1 1 1 c8ai [c8ai, c8far, c8near]).vy = 0.1 ∧
    dist2D c8ai.x c8ai.y c8near.x c8near.y < dist2D c8ai.x c8ai.y c8far.x c8far.y := by
  have h1 : ¬((c8ai.energy.getD 0 : ℝ) = 0) := by norm_num [c8ai]
  have h2 : ¬((1000:ℝ) - c8ai.lastMovementTime.getD 0 < 100) := by norm_num [c8ai]
  have hE : (aiAfterGrowth 1000 c8ai).energy.getD 0 < 30 := by
    rw [c8_grow]
    norm_num [c8grown, c8ai]
  have hNE : (aiGlowing (aiAfterGrowth 1000 c8ai) [c8ai, c8far, c8near]).isEmpty = false := by
    rw [c8_grow, c8_glowing]
    rfl
  have hupd : updateAI 1000 1 1 1 c8ai [c8ai, c8far, c8near] =
      aiSeek 0.1 { c8grown with aiState := some .charging } c8far := by
    simp only [updateAI]
    rw [if_neg h1, if_neg h2, if_pos (And.intro hE hNE), c8_grow, c8_glowing]
  rw [hupd]
  refine ⟨?_, ?_, ?_⟩
  · rw [aiSeek_aiState]
  · simp only [aiSeek, c8grown, c8ai, c8far]
    norm_num [sqrt_40000]
  · simp only [dist2D, c8ai, c8far, c8near]
    norm_num [sqrt_2500, sqrt_40000]

/-- C8 witness: the charging branch of the priority theorem at a concrete
input — low energy with glowing bodies in range yields `charging`. -/
theorem C8_witness :
    (¬(c8ai.energy.getD 0 = 0) ∧ ¬((1000:ℝ) - c8ai.lastMovementTime.getD 0 < 100) ∧
     (aiAfterGrowth 1000 c8ai).energy.getD 0 < 30 ∧
     (aiGlowing (aiAfterGrowth 1000 c8ai) [c8ai, c8far, c8near]).isEmpty = false) ∧
    (updateAI 1000 1 1 1 c8ai [c8ai, c8far, c8near]).aiState = some .charging := by
  have h1 : ¬((c8ai.energy.getD 0 : ℝ) = 0) := by norm_num [c8ai]
  have h2 : ¬((1000:ℝ) - c8ai.lastMovementTime.getD 0 < 100) := by norm_num [c8ai]
  have hE : (aiAfterGrowth 1000 c8ai).energy.getD 0 < 30 := by
    rw [c8_grow]
    norm_num [c8grown, c8ai]
  have hNE : (aiGlowing (aiAfterGrowth 1000 c8ai) [c8ai, c8far, c8near]).isEmpty = false := by
    rw [c8_grow, c8_glowing]
    rfl
  exact ⟨⟨h1, h2, hE, hNE⟩,
    (C8_ai_priority 1000 1 1 1 c8ai [c8ai, c8far, c8near] h1 h2).1 (And.intro hE hNE)⟩

end GravityWars
